import Mathlib

/-!
Verification development for `class_voting_streamlit/app.py`.

The application stores one JSON record per class in a remote store
(`/classes/{class_code}`), with `ideas` a list of scenario objects and
`votes` a mapping from voter name to that voter's vote set (either a
legacy positional list or a keyed object `idea_<i> -> rating`).

We shallowly embed the JSON data model (`JVal`), the read path of
`get_data` in unauthenticated fallback mode (status-checked GET,
legacy-list normalization, unchecked write-back PUT), the vote save and
remove operations of the voting tab, the slider auto-save handler, the
results-tab aggregation and rendering, scenario submission, and the
teacher-password-gated class creation / data reset.

Python dictionaries are modelled as association lists with unique keys
in insertion order; `d[k] = v` replaces the first (only) occurrence in
place or appends, `d.pop(k)` removes the occurrence, mirroring Python
dict semantics.  Exceptions are modelled with `Except String`.
-/

/-- JSON-like values as produced by `response.json()` / the Firebase SDK. -/
inductive JVal where
  | null
  | int (n : Int)
  | bool (b : Bool)
  | str (s : String)
  | arr (xs : List JVal)
  | obj (kvs : List (String × JVal))
deriving Repr

/-- Key under which the vote for the scenario at index `i` is stored:
`f"idea_{i}"` in the source. -/
def ideaKey (i : Nat) : String := s!"idea_{i}"

/-- Python `d[k]` / `d.get(k)` on an association-list dictionary. -/
def alookup {α : Type} : List (String × α) → String → Option α
  | [], _ => none
  | p :: rest, k => if p.1 = k then some p.2 else alookup rest k

/-- Python `d[k] = v`: replace the entry for `k` in place if present
(dict keys are unique), else append a new entry. -/
def aset {α : Type} : List (String × α) → String → α → List (String × α)
  | [], k, v => [(k, v)]
  | p :: rest, k, v => if p.1 = k then (k, v) :: rest else p :: aset rest k v

/-- Python `d.pop(k, None)`: drop the entry for `k`. -/
def apop {α : Type} (m : List (String × α)) (k : String) : List (String × α) :=
  m.filter fun p => p.1 ≠ k

/-- Python truthiness of a JSON value (`if data:`). -/
def truthy : JVal → Bool
  | .null => false
  | .int n => n != 0
  | .bool b => b
  | .str s => s != ""
  | .arr xs => !xs.isEmpty
  | .obj kvs => !kvs.isEmpty

/-- Test for the literal value `0` (the "no vote" sentinel). -/
def isZeroInt : JVal → Bool
  | .int 0 => true
  | _ => false

/-- Python `v == n` for an `int` `n` (`True == 1` holds in Python). -/
def eqInt (v : JVal) (n : Int) : Bool :=
  match v with
  | .int m => m == n
  | .bool b => (if b then (1 : Int) else 0) == n
  | _ => false

/-- Python `int(v)` coercion on the value shapes that occur in stored
votes, as `none` when `int()` would raise `ValueError`/`TypeError`
(those votes are skipped by the aggregator). -/
def toIntOpt : JVal → Option Int
  | .int n => some n
  | .bool b => some (if b then 1 else 0)
  | .str s => s.toInt?
  | _ => none

/-- The fresh empty class record `{"ideas": [], "votes": {}}`. -/
def emptyRecord : JVal := .obj [("ideas", .arr []), ("votes", .obj [])]

/-- Dictionary lookup on an `obj`-shaped value (`data["k"]`). -/
def jget (d : JVal) (k : String) : Option JVal :=
  match d with
  | .obj kvs => alookup kvs k
  | _ => none

/-- Dictionary update on an `obj`-shaped value (`data["k"] = v`). -/
def jset (d : JVal) (k : String) (v : JVal) : JVal :=
  match d with
  | .obj kvs => .obj (aset kvs k v)
  | _ => d

/-- Normalization loop body of `get_data` (app.py lines 61-64): a legacy
positional list becomes a keyed object, `idea_<i>` for position `i`,
every position converted, values unchanged. -/
def enumKeys (xs : List JVal) : List (String × JVal) :=
  xs.enum.map fun p => (ideaKey p.1, p.2)

/-- Per-voter normalization applied by `get_data`: only list-shaped
vote sets are converted; everything else passes through. -/
def normalizeVoteVal : JVal → JVal
  | .arr xs => .obj (enumKeys xs)
  | v => v

/-- Votes normalization of `get_data` (app.py lines 56-74) applied to a
truthy fetched `data` value: converts each voter's legacy list in
`data["votes"]` to keyed form and records the write-back PUT issued for
each converted voter.  Returns `Except.error` where the Python loop
would raise (e.g. `data["votes"].items()` on a non-dict), to be caught
by the surrounding `except` clause. -/
def processVotes (data : JVal) :
    Except String (JVal × List (String × List (String × JVal))) :=
  match data with
  | .obj kvs =>
    match alookup kvs "votes" with
    | none => .ok (data, [])
    | some (.obj voters) =>
      let converted := voters.map fun p => (p.1, normalizeVoteVal p.2)
      let writes := voters.filterMap fun p =>
        match p.2 with
        | .arr xs => some (p.1, enumKeys xs)
        | _ => none
      .ok (.obj (aset kvs "votes" (.obj converted)), writes)
    | some _ => .error "AttributeError"
  | .arr xs =>
    if xs.any fun v => match v with | .str s => s == "votes" | _ => false then
      .error "TypeError"
    else .ok (data, [])
  | .str s =>
    if (s.splitOn "votes").length > 1 then .error "TypeError" else .ok (data, [])
  | .null => .ok (data, [])
  | _ => .error "TypeError"

/-- State of the unauthenticated fallback transport for one `get_data`
call: the GET status, the GET body (`Except.error` models
`response.json()` raising), and the status returned by the write-back
PUT (which app.py lines 71-74 never read). -/
structure FBStore where
  getStatus : Nat
  getBody : Except String JVal
  putStatus : Nat
deriving Repr

/-- Observable outcome of one `get_data` call: the returned record, the
write-back PUTs issued (voter name and keyed payload), and the
`st.error` messages shown. -/
structure GetResult where
  record : JVal
  writes : List (String × List (String × JVal))
  errors : List String
deriving Repr

/-- Error message produced by the `except` clause of `get_data`. -/
def errMsg (e : String) : String := "Error retrieving data: " ++ e

/-- Model of `get_data` (app.py lines 37-80) in unauthenticated fallback
mode: a non-200 GET returns the fresh empty record with no message; a
raised exception (body parse failure, or a failure inside the
normalization loop) is caught, shown via `st.error`, and the empty
record returned; a falsy body (`null`, `{}`) returns the empty record;
otherwise the normalized data is returned and each converted voter's
keyed votes are PUT back, the PUT status never inspected. -/
def get_data (st : FBStore) : GetResult :=
  if st.getStatus ≠ 200 then ⟨emptyRecord, [], []⟩
  else
    match st.getBody with
    | .error e => ⟨emptyRecord, [], [errMsg e]⟩
    | .ok data =>
      if truthy data then
        match processVotes data with
        | .ok dw => ⟨dw.1, dw.2, []⟩
        | .error e => ⟨emptyRecord, [], [errMsg e]⟩
      else ⟨emptyRecord, [], []⟩

/-- Legacy-list conversion inside `save_vote` (app.py lines 387-393):
unlike the read-path normalization, it keeps only positions `j` with
`j < len(updated_data["ideas"])`. -/
def saveVoteConvert (ideasLen : Nat) (old : List JVal) : List (String × JVal) :=
  (old.enum.filter fun p => p.1 < ideasLen).map fun p => (ideaKey p.1, p.2)

/-- Model of `save_vote` (app.py lines 376-418) acting on the
participant's stored vote set as re-read by `get_data`: ensure a keyed
dict (absent voter starts empty; a legacy list is converted with the
in-bounds restriction), then set `idea_id` to `rating`.  The `.ok`
value is exactly the payload written by the narrow per-voter PUT.
`Except.error` marks shapes on which the Python item assignment would
raise. -/
def save_vote (ideasLen : Nat) (stored : Option JVal) (ideaId : String)
    (rating : Int) : Except String (List (String × JVal)) :=
  match stored with
  | none => .ok (aset [] ideaId (.int rating))
  | some (.arr xs) => .ok (aset (saveVoteConvert ideasLen xs) ideaId (.int rating))
  | some (.obj kvs) => .ok (aset kvs ideaId (.int rating))
  | some _ => .error "TypeError"

/-- Vote-removal payload (app.py lines 465-467 and 534-536): a copy of
the voter's stored vote set without `idea_id`. -/
def removeVoteVotes (stored : List (String × JVal)) (ideaId : String) :
    List (String × JVal) :=
  apop stored ideaId

/-- Manual "Remove Vote" / auto-save removal operation: the narrow PUT
is issued only when the re-read data has a keyed entry for this voter
containing `idea_id`; `none` means no write happens. -/
def removeVoteOp (stored : Option JVal) (ideaId : String) :
    Option (List (String × JVal)) :=
  match stored with
  | some (.obj kvs) =>
    if (alookup kvs ideaId).isSome then some (removeVoteVotes kvs ideaId)
    else none
  | _ => none

/-- Action decided by the slider-change callback. -/
inductive SliderAct where
  | saveAct (rating : Int)
  | removeAct
  | noop
deriving Repr, DecidableEq

/-- Model of `on_slider_change` (app.py lines 445-488): with auto-save
on, a positive value that differs from the cached current vote triggers
`save_vote`; value 0 with a cached vote triggers removal; otherwise
nothing happens. -/
def on_slider_change (autoSave : Bool) (newValue : Int)
    (currentVotes : List (String × JVal)) (k : String) : SliderAct :=
  if autoSave then
    if newValue > 0 then
      match alookup currentVotes k with
      | some v => if eqInt v newValue then .noop else .saveAct newValue
      | none => .saveAct newValue
    else if (alookup currentVotes k).isSome then .removeAct
    else .noop
  else .noop

/-- Manual-mode "Submit Vote" button availability (app.py lines
511-519): the button exists only for a positive rating and is disabled
when the displayed rating equals the cached current vote. -/
def manualSaveEnabled (newRating : Int) (currentVotes : List (String × JVal))
    (k : String) : Bool :=
  if newRating > 0 then
    match alookup currentVotes k with
    | some v => !eqInt v newRating
    | none => true
  else false

/-- Ratings the results aggregation collects for scenario index `i`
(app.py lines 633-649): each voter's integer-coercible value at key
`idea_<i>` of a keyed vote set, or the positional value at index `i` of
a legacy list when in range; everything non-coercible is skipped. -/
def collectVotes (votes : List (String × JVal)) (i : Nat) : List Int :=
  votes.filterMap fun p =>
    match p.2 with
    | .obj kvs => (alookup kvs (ideaKey i)).bind toIntOpt
    | .arr xs => (xs.get? i).bind toIntOpt
    | _ => none

/-- Average of the collected ratings, `sum(votes) / len(votes) if votes
else 0` (app.py line 652). -/
def avgOf (vs : List Int) : Rat :=
  if vs.isEmpty then 0 else (vs.sum : Rat) / (vs.length : Rat)

/-- One row of the results table (app.py lines 655-661). -/
structure ResultRow where
  idea_num : Nat
  idea : JVal
  submitted_by : JVal
  avg_score : Rat
  num_votes : Nat
deriving Repr

/-- Scenario field extraction with placeholder fallback
(`idea_data.get('idea', 'Unknown scenario')`, app.py lines 625-630). -/
def ideaField (ideaData : JVal) (k : String) (fallback : String) : JVal :=
  match ideaData with
  | .obj kvs => (alookup kvs k).getD (.str fallback)
  | _ => .str fallback

/-- Results list built by the aggregation loop (app.py lines 619-661),
one row per scenario in original order. -/
def buildResults (ideas : List JVal) (votes : List (String × JVal)) :
    List ResultRow :=
  ideas.enum.map fun p =>
    let vs := collectVotes votes p.1
    { idea_num := p.1 + 1
      idea := ideaField p.2 "idea" "Unknown scenario"
      submitted_by := ideaField p.2 "submitted_by" "Unknown"
      avg_score := avgOf vs
      num_votes := vs.length }

/-- Insertion step of a descending sort on `avg_score`. -/
def insertDesc (r : ResultRow) : List ResultRow → List ResultRow
  | [] => [r]
  | x :: xs =>
    if x.avg_score ≤ r.avg_score then r :: x :: xs else x :: insertDesc r xs

/-- Descending sort on `avg_score`, modelling
`results_df.sort_values("avg_score", ascending=False)` (app.py line 669). -/
def sortRowsDesc : List ResultRow → List ResultRow
  | [] => []
  | r :: rs => insertDesc r (sortRowsDesc rs)

/-- What the results tab shows: either the sorted table or one of the
two informational messages. -/
inductive ResultsView where
  | table (rows : List ResultRow)
  | message (s : String)
deriving Repr

/-- Model of the results tab (app.py lines 613-706): with no scenarios,
an informational placeholder; with scenarios, the table of rows sorted
by `avg_score` descending is rendered only when the rows are non-empty
and the sum of the average scores is positive, otherwise the "No votes"
message replaces it. -/
def resultsView (ideas : List JVal) (votes : List (String × JVal)) :
    ResultsView :=
  if ideas.isEmpty then .message "No scenarios have been submitted yet!"
  else if !(buildResults ideas votes).isEmpty
      && decide (0 < ((buildResults ideas votes).map fun r => r.avg_score).sum) then
    .table (sortRowsDesc (buildResults ideas votes))
  else .message "No votes have been submitted yet!"

/-- Teacher password resolution (app.py lines 122-128): the
`teacher_password` secret when configured, else the literal fallback. -/
def get_teacher_password (secret : Option String) : String :=
  match secret with
  | some s => s
  | none => "teacherpass"

/-- Outcome of the "Create Class" action. -/
inductive CreateOutcome where
  | errPassword
  | errEmptyFields
  | errWriteFailed
  | created
deriving Repr, DecidableEq

/-- Observable effects of one "Create Class" click: the outcome, the
registry payload PUT to `/class_access_codes` (if the write was
attempted), the class-data initialization write (if performed), and the
error message shown (if any). -/
structure CreateResult where
  outcome : CreateOutcome
  registryWrite : Option (List (String × String))
  classInit : Option (String × JVal)
  errorShown : Option String
deriving Repr

/-- Model of the "Create Class" handler (app.py lines 173-208): wrong
teacher password errors out before anything else; empty name or code
errors out; otherwise the registry entry for the new code is set
(overwriting any existing entry) and persisted, and on a successful
registry write the class data at that code is initialized to the fresh
empty record.  No duplicate-code check exists anywhere on this path. -/
def createClass (secret : Option String) (pwInput className classCode : String)
    (registry : List (String × String)) (registryWriteOk : Bool) : CreateResult :=
  if pwInput ≠ get_teacher_password secret then
    ⟨.errPassword, none, none, some "Incorrect teacher password"⟩
  else if className = "" ∨ classCode = "" then
    ⟨.errEmptyFields, none, none, some "Please provide both class name and code"⟩
  else
    let newReg := aset registry classCode className
    if registryWriteOk then
      ⟨.created, some newReg, some (classCode, emptyRecord), none⟩
    else
      ⟨.errWriteFailed, some newReg, none,
        some "Failed to create class. Please try again."⟩

/-- Observable effects of one "Reset All Data" click: whether the
empty-record write was issued, and the message shown. -/
structure ResetResult where
  writeIssued : Bool
  msg : String
deriving Repr, DecidableEq

/-- Model of the sidebar reset handler (app.py lines 232-242): only an
exactly matching teacher password issues the empty-record write. -/
def resetData (secret : Option String) (pwInput : String) (saveOk : Bool) :
    ResetResult :=
  if pwInput = get_teacher_password secret then
    if saveOk then ⟨true, "Data reset successfully!"⟩
    else ⟨true, "Failed to reset data. Check Firebase connection."⟩
  else ⟨false, "Incorrect password"⟩

/-- New scenario object appended on submission (app.py lines 289-293). -/
def scenarioEntry (idea name : String) (ts : JVal) : JVal :=
  .obj [("idea", .str idea), ("submitted_by", .str name), ("timestamp", ts)]

/-- Outcome of one "Submit Scenario" click: a validation error with no
write, the full-record payload handed to `save_data` together with that
write's success, or an uncaught exception on a malformed record. -/
inductive SubmitStep where
  | errName
  | errIdea
  | wrote (payload : JVal) (ok : Bool)
  | exnAppend
deriving Repr

/-- Model of the "Submit Scenario" handler (app.py lines 276-300),
acting on the freshly re-read class record: an empty display name, then
an empty scenario text, each abort with their specific error and no
write; otherwise the new entry is appended to `data["ideas"]` (created
as a fresh list if missing) and the whole record is written back. -/
def submitScenario (data : JVal) (name idea : String) (ts : JVal)
    (saveOk : Bool) : SubmitStep :=
  if name = "" then .errName
  else if idea = "" then .errIdea
  else
    match data with
    | .obj kvs =>
      match alookup kvs "ideas" with
      | none =>
        .wrote (.obj (aset kvs "ideas" (.arr [scenarioEntry idea name ts]))) saveOk
      | some (.arr xs) =>
        .wrote (.obj (aset kvs "ideas" (.arr (xs ++ [scenarioEntry idea name ts])))) saveOk
      | some _ => .exnAppend
    | _ => .exnAppend

/-- Message shown for each submission outcome (app.py lines 281-300). -/
def submitMessage : SubmitStep → Option String
  | .errName => some "Please enter your group name first!"
  | .errIdea => some "Please enter a scenario!"
  | .wrote _ true => some "Scenario submitted successfully!"
  | .wrote _ false => some "Failed to submit scenario. Please try again."
  | .exnAppend => none

/-! ### General lemmas about the dictionary model and the sort -/

theorem alookup_map_value {α β : Type} (f : α → β) (m : List (String × α)) (k : String) :
    alookup (m.map fun p => (p.1, f p.2)) k = (alookup m k).map f := by
  induction m with
  | nil => rfl
  | cons p rest ih => by_cases h : p.1 = k <;> simp [alookup, h, ih]

theorem alookup_mem {α : Type} {m : List (String × α)} {k : String} {v : α}
    (h : alookup m k = some v) : (k, v) ∈ m := by
  induction m with
  | nil => simp [alookup] at h
  | cons p rest ih =>
    obtain ⟨k1, v1⟩ := p
    by_cases hp : k1 = k
    · rw [alookup, if_pos hp] at h
      injection h with h2
      subst hp
      subst h2
      exact List.mem_cons_self _ _
    · rw [alookup, if_neg hp] at h
      exact List.mem_cons_of_mem _ (ih h)

theorem mem_aset {α : Type} {m : List (String × α)} {k : String} {v : α} {x : String × α}
    (h : x ∈ aset m k v) : x = (k, v) ∨ x ∈ m := by
  induction m with
  | nil => exact Or.inl (by simpa [aset] using h)
  | cons p rest ih =>
    by_cases hp : p.1 = k
    · rw [aset, if_pos hp] at h
      rcases List.mem_cons.mp h with h | h
      · exact Or.inl h
      · exact Or.inr (List.mem_cons_of_mem _ h)
    · rw [aset, if_neg hp] at h
      rcases List.mem_cons.mp h with h | h
      · exact Or.inr (by simp [h])
      · rcases ih h with h | h
        · exact Or.inl h
        · exact Or.inr (List.mem_cons_of_mem _ h)

theorem alookup_aset_self {α : Type} (m : List (String × α)) (k : String) (v : α) :
    alookup (aset m k v) k = some v := by
  induction m with
  | nil => simp [aset, alookup]
  | cons p rest ih => by_cases hp : p.1 = k <;> simp [aset, hp, alookup, ih]

theorem alookup_aset_ne {α : Type} (m : List (String × α)) {k k' : String} (v : α)
    (hk : k' ≠ k) : alookup (aset m k v) k' = alookup m k' := by
  have hkk : ¬(k = k') := fun h => hk h.symm
  induction m with
  | nil => simp [aset, alookup, hkk]
  | cons p rest ih =>
    obtain ⟨k1, v1⟩ := p
    by_cases hp : k1 = k
    · rw [aset, if_pos hp, alookup, if_neg hkk, alookup,
        if_neg (show ¬(k1 = k') by rw [hp]; exact hkk)]
    · rw [aset, if_neg hp, alookup, alookup]
      by_cases hq : k1 = k' <;> simp [hq, ih]

theorem mem_apop {α : Type} {m : List (String × α)} {k : String} {x : String × α}
    (h : x ∈ apop m k) : x ∈ m :=
  List.mem_of_mem_filter h

theorem isZeroInt_int_ne {n : Int} (hn : n ≠ 0) : isZeroInt (JVal.int n) = false := by
  cases n with
  | ofNat m =>
    cases m with
    | zero => exact absurd rfl hn
    | succ m => rfl
  | negSucc m => rfl

theorem range_filter_lt (n len : Nat) :
    (List.range n).filter (fun i => i < len) = List.range (min len n) := by
  induction n with
  | zero => simp
  | succ n ih =>
    rw [List.range_succ, List.filter_append, ih]
    by_cases h : n < len
    · have h1 : min len (n + 1) = n + 1 := by omega
      have h2 : min len n = n := by omega
      simp [h1, h2, h, List.range_succ]
    · have h1 : min len (n + 1) = min len n := by omega
      simp [h1, h]

/-- Descending comparison used by the results table sort. -/
def rowGe (a b : ResultRow) : Prop := b.avg_score ≤ a.avg_score

theorem insertDesc_perm (r : ResultRow) (l : List ResultRow) :
    (insertDesc r l).Perm (r :: l) := by
  induction l with
  | nil => exact List.Perm.refl _
  | cons x xs ih =>
    rw [insertDesc]
    by_cases h : x.avg_score ≤ r.avg_score
    · rw [if_pos h]
    · rw [if_neg h]
      exact (ih.cons x).trans (List.Perm.swap _ _ _)

theorem insertDesc_sorted {r : ResultRow} {l : List ResultRow}
    (h : l.Pairwise rowGe) : (insertDesc r l).Pairwise rowGe := by
  induction l with
  | nil => simp [insertDesc, List.pairwise_singleton]
  | cons x xs ih =>
    rw [insertDesc]
    rcases List.pairwise_cons.mp h with ⟨hx, hxs⟩
    by_cases hc : x.avg_score ≤ r.avg_score
    · rw [if_pos hc]
      refine List.pairwise_cons.mpr ⟨?_, h⟩
      intro b hb
      rcases List.mem_cons.mp hb with hb | hb
      · subst hb; exact hc
      · exact le_trans (hx b hb) hc
    · rw [if_neg hc]
      refine List.pairwise_cons.mpr ⟨?_, ih hxs⟩
      intro b hb
      rcases List.mem_cons.mp ((insertDesc_perm r xs).mem_iff.mp hb) with hb | hb
      · subst hb
        exact le_of_not_le hc
      · exact hx b hb

theorem sortRowsDesc_perm (l : List ResultRow) : (sortRowsDesc l).Perm l := by
  induction l with
  | nil => exact List.Perm.refl _
  | cons r rs ih =>
    exact (insertDesc_perm r (sortRowsDesc rs)).trans (ih.cons r)

theorem sortRowsDesc_sorted (l : List ResultRow) : (sortRowsDesc l).Pairwise rowGe := by
  induction l with
  | nil => exact List.Pairwise.nil
  | cons r rs ih => exact insertDesc_sorted ih

/-! ### Claim C1 -/

/-- C1 counterexample: reading the legacy list `[3, 5, 0]` through
`get_data` yields `{idea_0: 3, idea_1: 5, idea_2: 0}` and persists that
same form back — the 0 entry is NOT dropped, contradicting the claim
that `[3, 5, 0]` becomes `{idea_0: 3, idea_1: 5}`. -/
theorem C1_counterexample :
    jget (get_data ⟨200, .ok (.obj [("ideas", .arr [.str "a", .str "b", .str "c"]),
        ("votes", .obj [("alice", .arr [.int 3, .int 5, .int 0])])]), 200⟩).record "votes"
      = some (.obj [("alice", .obj [(ideaKey 0, .int 3), (ideaKey 1, .int 5),
          (ideaKey 2, .int 0)])])
    ∧ (get_data ⟨200, .ok (.obj [("ideas", .arr [.str "a", .str "b", .str "c"]),
        ("votes", .obj [("alice", .arr [.int 3, .int 5, .int 0])])]), 200⟩).writes
      = [("alice", [(ideaKey 0, .int 3), (ideaKey 1, .int 5), (ideaKey 2, .int 0)])]
    ∧ ([(ideaKey 0, JVal.int 3), (ideaKey 1, JVal.int 5), (ideaKey 2, JVal.int 0)].any
        fun p => isZeroInt p.2) = true :=
  ⟨rfl, rfl, rfl⟩

/-- C1 (amended): for every voter whose stored vote set is a legacy
positional list, `get_data` yields the keyed form with key `idea_<i>`
for every position `i` — 0 entries included, none dropped — and exactly
this keyed form is persisted back for that voter, with no error. -/
theorem C1_legacy_normalization (ideasJ : JVal) (voters : List (String × JVal))
    (voter : String) (vs : List JVal) (p : Nat)
    (hv : alookup voters voter = some (.arr vs)) :
    jget (get_data ⟨200, .ok (.obj [("ideas", ideasJ), ("votes", .obj voters)]), p⟩).record
        "votes"
      = some (.obj (voters.map fun q => (q.1, normalizeVoteVal q.2)))
    ∧ alookup (voters.map fun q => (q.1, normalizeVoteVal q.2)) voter
      = some (.obj (enumKeys vs))
    ∧ (voter, enumKeys vs)
        ∈ (get_data ⟨200, .ok (.obj [("ideas", ideasJ), ("votes", .obj voters)]), p⟩).writes
    ∧ (∀ i : Nat, (enumKeys vs)[i]? = vs[i]?.map fun v => (ideaKey i, v))
    ∧ (get_data ⟨200, .ok (.obj [("ideas", ideasJ), ("votes", .obj voters)]), p⟩).errors
      = [] := by
  refine ⟨rfl, ?_, ?_, ?_, rfl⟩
  · rw [alookup_map_value, hv]
    rfl
  · exact List.mem_filterMap.mpr ⟨(voter, JVal.arr vs), alookup_mem hv, rfl⟩
  · intro i
    simp only [enumKeys, List.getElem?_map, List.getElem?_enum, Option.map_map]
    rfl

/-- C1 witness: the amended theorem applied to the store holding the
legacy list `[3, 5, 0]` for voter `alice`. -/
theorem C1_witness :
    jget (get_data ⟨200, .ok (.obj [("ideas", .arr [.str "a"]),
        ("votes", .obj [("alice", .arr [.int 3, .int 5, .int 0])])]), 200⟩).record "votes"
      = some (.obj [("alice", .obj [(ideaKey 0, .int 3), (ideaKey 1, .int 5),
          (ideaKey 2, .int 0)])]) :=
  (C1_legacy_normalization (.arr [.str "a"]) [("alice", .arr [.int 3, .int 5, .int 0])]
    "alice" [.int 3, .int 5, .int 0] 200 rfl).1

/-! ### Claim C2 -/

/-- C2 counterexample: a voter whose stored vote set is the normalized
form of the legacy list `[5, 0]` keeps the 0-valued entry `idea_1`
through `save_vote`: saving rating 4 for `idea_0` stores
`{idea_0: 4, idea_1: 0}`, so the stored vote set does contain a key
mapped to 0, contradicting the claimed invariant. -/
theorem C2_counterexample :
    save_vote 2 (some (normalizeVoteVal (.arr [.int 5, .int 0]))) (ideaKey 0) 4
      = .ok [(ideaKey 0, .int 4), (ideaKey 1, .int 0)]
    ∧ ([(ideaKey 0, JVal.int 4), (ideaKey 1, JVal.int 0)].any fun p => isZeroInt p.2)
      = true :=
  ⟨rfl, rfl⟩

/-- C2 (amended): provided the voter's stored vote set contains no
0-valued entry, every save with a rating other than 0 and every removal
again leaves no key mapped to 0; the slider handler maps value 0 to a
removal (never a save), and the manual submit button is unavailable at
value 0.  Pre-existing 0 entries inherited from legacy lists, however,
are preserved by the conversions. -/
theorem C2_no_zero_amended (ideasLen : Nat) (kvs cur : List (String × JVal))
    (ideaId k : String) (r rv : Int)
    (hz : ∀ p ∈ kvs, isZeroInt p.2 = false) (hr : r ≠ 0) :
    (save_vote ideasLen (some (.obj kvs)) ideaId r = .ok (aset kvs ideaId (.int r))
      ∧ ∀ p ∈ aset kvs ideaId (.int r), isZeroInt p.2 = false)
    ∧ (∀ p ∈ removeVoteVotes kvs k, isZeroInt p.2 = false)
    ∧ on_slider_change true 0 cur k ≠ .saveAct rv
    ∧ manualSaveEnabled 0 cur k = false := by
  refine ⟨⟨rfl, ?_⟩, ?_, ?_, rfl⟩
  · intro p hp
    rcases mem_aset hp with h | h
    · rw [h]
      exact isZeroInt_int_ne hr
    · exact hz p h
  · intro p hp
    exact hz p (mem_apop hp)
  · rw [on_slider_change]
    norm_num
    split <;> simp

/-- C2 witness: the amended theorem on the zero-free stored set
`{idea_0: 5}`, saving rating 3 for `idea_1`. -/
theorem C2_witness :
    save_vote 2 (some (.obj [(ideaKey 0, .int 5)])) (ideaKey 1) 3
      = .ok (aset [(ideaKey 0, .int 5)] (ideaKey 1) (.int 3)) :=
  (C2_no_zero_amended 2 [(ideaKey 0, .int 5)] [] (ideaKey 1) (ideaKey 0) 3 1
    (by intro p hp; simp at hp; rw [hp]; rfl) (by decide)).1.1

/-! ### Claim C4 -/

/-- C4 counterexample: a non-200 GET (status 404) in fallback mode
returns the fresh empty record with NO user-visible error message,
contradicting the claim that a non-200 status surfaces an error. -/
theorem C4_counterexample :
    get_data ⟨404, .ok .null, 200⟩ = ⟨emptyRecord, [], []⟩
    ∧ (get_data ⟨404, .ok .null, 200⟩).errors = [] :=
  ⟨rfl, rfl⟩

/-- C4 (amended): `get_data` never raises: a non-200 GET status returns
the fresh empty record silently (no error message); a parse exception
surfaces an error and returns the empty record; a missing record
(`null` body) returns the empty record; an exception inside the
normalization loop (here: `votes` not a dict) surfaces an error and
returns the empty record. -/
theorem C4_fail_soft_amended (st : FBStore) (p : Nat) (e : String)
    (hs : st.getStatus ≠ 200) :
    get_data st = ⟨emptyRecord, [], []⟩
    ∧ get_data ⟨200, .error e, p⟩ = ⟨emptyRecord, [], [errMsg e]⟩
    ∧ get_data ⟨200, .ok .null, p⟩ = ⟨emptyRecord, [], []⟩
    ∧ get_data ⟨200, .ok (.obj [("votes", .int 5)]), p⟩
      = ⟨emptyRecord, [], [errMsg "AttributeError"]⟩ := by
  refine ⟨?_, rfl, rfl, rfl⟩
  rw [get_data, if_pos hs]

/-- C4 witness: the amended theorem at GET status 500. -/
theorem C4_witness :
    get_data ⟨500, .ok .null, 200⟩ = ⟨emptyRecord, [], []⟩ :=
  (C4_fail_soft_amended ⟨500, .ok .null, 200⟩ 0 "x" (by decide)).1

/-! ### Claim C9 -/

/-- C9: the `save_vote` legacy conversion keeps exactly the positions
strictly below the current number of ideas (its key list is
`idea_<i>` for `i < min ideasLen (length vs)`), whereas the `get_data`
normalization keys every position (`idea_<i>` for `i < length vs`); on
the out-of-range entry of `[3, 5]` with a single idea the two paths
disagree: `save_vote` drops `idea_1` while `get_data` keeps it. -/
theorem C9_conversion_disagreement (ideasLen : Nat) (vs : List JVal) :
    ((saveVoteConvert ideasLen vs).map Prod.fst
        = (List.range (min ideasLen vs.length)).map ideaKey
      ∧ (enumKeys vs).map Prod.fst = (List.range vs.length).map ideaKey)
    ∧ (alookup (saveVoteConvert 1 [.int 3, .int 5]) (ideaKey 1) = none
      ∧ alookup (enumKeys [.int 3, .int 5]) (ideaKey 1) = some (.int 5)
      ∧ save_vote 1 (some (.arr [.int 3, .int 5])) (ideaKey 0) 4
          = .ok [(ideaKey 0, .int 4)]) := by
  refine ⟨⟨?_, ?_⟩, rfl, rfl, rfl⟩
  · have h1 : (saveVoteConvert ideasLen vs).map Prod.fst
        = ((vs.enum.filter fun p => p.1 < ideasLen).map Prod.fst).map ideaKey := by
      rw [saveVoteConvert, List.map_map, List.map_map]
      rfl
    have h2 : (vs.enum.filter fun p => p.1 < ideasLen).map Prod.fst
        = (vs.enum.map Prod.fst).filter fun i => i < ideasLen := by
      rw [List.filter_map]
      rfl
    rw [h1, h2, List.enum_map_fst, range_filter_lt]
  · rw [enumKeys, List.map_map, ← List.enum_map_fst vs, List.map_map]
    rfl

/-! ### Claim C10 -/

/-- C10: the outcome of `get_data` is independent of the status
returned by the write-back PUT (the code never reads it): any two PUT
statuses give identical results, and concretely a failing PUT (500)
while normalizing the legacy list `[3, 5]` produces no error message,
no retry, and still returns the normalized data. -/
theorem C10_writeback_unchecked :
    (∀ (g : Nat) (b : Except String JVal) (p1 p2 : Nat),
        get_data ⟨g, b, p1⟩ = get_data ⟨g, b, p2⟩)
    ∧ get_data ⟨200, .ok (.obj [("ideas", .arr [.str "s"]),
          ("votes", .obj [("alice", .arr [.int 3, .int 5])])]), 500⟩
        = ⟨.obj [("ideas", .arr [.str "s"]),
            ("votes", .obj [("alice", .obj [(ideaKey 0, .int 3), (ideaKey 1, .int 5)])])],
           [("alice", [(ideaKey 0, .int 3), (ideaKey 1, .int 5)])], []⟩ :=
  ⟨fun g b p1 p2 => rfl, rfl⟩

/-! ### Claim C3 -/

/-- C3: the results aggregation produces, for the scenario at index
`i`, `avg_score = avgOf (collectVotes votes i)` and `num_votes` its
count; concretely voters rating 4, 5 and absent collect `[4, 5]` with
average `9/2 = 4.5` and count 2; zero collected ratings give average 0
and count 0 with no division failure; non-integer-coercible values are
skipped; a legacy list voter contributes its positional value. -/
theorem C3_average_aggregation :
    (∀ (ideas : List JVal) (votes : List (String × JVal)) (i : Nat),
        i < ideas.length →
        ((buildResults ideas votes).map fun r => (r.avg_score, r.num_votes))[i]?
          = some (avgOf (collectVotes votes i), (collectVotes votes i).length))
    ∧ collectVotes
        [("StudentA", .obj [(ideaKey 0, .int 4)]), ("StudentB", .obj [(ideaKey 0, .int 5)]),
         ("StudentC", .obj [])] 0 = [4, 5]
    ∧ avgOf [4, 5] = (9 : Rat) / 2
    ∧ ([4, 5] : List Int).length = 2
    ∧ avgOf [] = 0
    ∧ collectVotes [("D", .obj [(ideaKey 0, .null)]), ("E", .obj [(ideaKey 0, .arr [])])] 0
      = []
    ∧ collectVotes [("L", .arr [.int 2, .int 3])] 1 = [3] := by
  refine ⟨?_, rfl, ?_, rfl, rfl, rfl, rfl⟩
  · intro ideas votes i h
    simp [buildResults, List.getElem?_map, List.getElem?_enum, List.getElem?_eq_getElem h]
  · norm_num [avgOf, List.sum_cons, List.sum_nil]

/-- C3 witness: the aggregation theorem applied to one scenario with
voters rating 4, 5 and absent. -/
theorem C3_witness :
    ((buildResults [.obj [("idea", .str "s")]]
        [("StudentA", .obj [(ideaKey 0, .int 4)]), ("StudentB", .obj [(ideaKey 0, .int 5)]),
         ("StudentC", .obj [])]).map fun r => (r.avg_score, r.num_votes))[0]?
      = some (avgOf (collectVotes
          [("StudentA", .obj [(ideaKey 0, .int 4)]), ("StudentB", .obj [(ideaKey 0, .int 5)]),
           ("StudentC", .obj [])] 0),
        (collectVotes
          [("StudentA", .obj [(ideaKey 0, .int 4)]), ("StudentB", .obj [(ideaKey 0, .int 5)]),
           ("StudentC", .obj [])] 0).length) :=
  C3_average_aggregation.1 [.obj [("idea", .str "s")]]
    [("StudentA", .obj [(ideaKey 0, .int 4)]), ("StudentB", .obj [(ideaKey 0, .int 5)]),
     ("StudentC", .obj [])] 0 (by decide)

/-! ### Claim C5 -/

/-- C5: class creation and data reset are gated on the supplied
password exactly equalling the configured teacher password (secret or
the literal fallback `teacherpass`): any non-matching password yields
the specific error and no mutation, a matching password (with non-empty
fields and a successful store write) succeeds. -/
theorem C5_teacher_gate (secret : Option String) (pw name code : String)
    (registry : List (String × String)) (wOk saveOk : Bool) :
    (pw ≠ get_teacher_password secret →
      createClass secret pw name code registry wOk
          = ⟨.errPassword, none, none, some "Incorrect teacher password"⟩
        ∧ resetData secret pw saveOk = ⟨false, "Incorrect password"⟩)
    ∧ (pw = get_teacher_password secret → name ≠ "" → code ≠ "" →
        createClass secret pw name code registry true
          = ⟨.created, some (aset registry code name), some (code, emptyRecord), none⟩)
    ∧ (pw = get_teacher_password secret →
        resetData secret pw true = ⟨true, "Data reset successfully!"⟩)
    ∧ get_teacher_password none = "teacherpass" := by
  refine ⟨fun h => ⟨?_, ?_⟩, fun h hn hc => ?_, fun h => ?_, rfl⟩
  · rw [createClass, if_pos h]
  · rw [resetData, if_neg (fun he => h he)]
  · rw [createClass, if_neg (fun hne => hne h),
      if_neg (by rintro (h1 | h1) <;> [exact hn h1; exact hc h1]), if_pos rfl]
  · rw [resetData, if_pos h, if_pos rfl]

/-- C5 witness: a wrong password is rejected with no mutation and the
matching fallback password resets successfully. -/
theorem C5_witness :
    (createClass none "nope" "Period 3" "ETH101" [] true
        = ⟨.errPassword, none, none, some "Incorrect teacher password"⟩
      ∧ resetData none "nope" true = ⟨false, "Incorrect password"⟩)
    ∧ resetData none "teacherpass" true = ⟨true, "Data reset successfully!"⟩ :=
  ⟨(C5_teacher_gate none "nope" "Period 3" "ETH101" [] true true).1 (by decide),
   (C5_teacher_gate none "teacherpass" "Period 3" "ETH101" [] true true).2.2.1 rfl⟩

/-! ### Claim C7 -/

/-- C7: scenario submission requires a non-empty display name and
non-empty scenario text, each absence reporting its specific error with
nothing written; otherwise the new entry is appended to the freshly
re-read record's `ideas` and the whole record is written back with
every other key — in particular `votes` — unchanged. -/
theorem C7_scenario_submission (kvs : List (String × JVal)) (xs : List JVal)
    (name idea : String) (ts : JVal) (ok : Bool)
    (hideas : alookup kvs "ideas" = some (.arr xs)) :
    (name = "" → submitScenario (.obj kvs) name idea ts ok = .errName
      ∧ submitMessage (submitScenario (.obj kvs) name idea ts ok)
          = some "Please enter your group name first!")
    ∧ (name ≠ "" → idea = "" → submitScenario (.obj kvs) name idea ts ok = .errIdea
      ∧ submitMessage (submitScenario (.obj kvs) name idea ts ok)
          = some "Please enter a scenario!")
    ∧ (name ≠ "" → idea ≠ "" →
        submitScenario (.obj kvs) name idea ts ok
          = .wrote (.obj (aset kvs "ideas" (.arr (xs ++ [scenarioEntry idea name ts])))) ok
        ∧ jget (.obj (aset kvs "ideas" (.arr (xs ++ [scenarioEntry idea name ts])))) "ideas"
          = some (.arr (xs ++ [scenarioEntry idea name ts]))
        ∧ ∀ k, k ≠ "ideas" →
            jget (.obj (aset kvs "ideas" (.arr (xs ++ [scenarioEntry idea name ts])))) k
              = alookup kvs k) := by
  refine ⟨fun hn => ?_, fun hn hi => ?_, fun hn hi => ⟨?_, ?_, ?_⟩⟩
  · simp [submitScenario, hn, submitMessage]
  · simp [submitScenario, hn, hi, submitMessage]
  · simp [submitScenario, hn, hi, hideas]
  · exact alookup_aset_self kvs "ideas" _
  · intro k hk
    exact alookup_aset_ne kvs _ hk

/-- C7 witness: the submission theorem applied to an empty class record
with name `TeamA` and a concrete scenario text. -/
theorem C7_witness :
    submitScenario (.obj [("ideas", .arr []), ("votes", .obj [])]) "TeamA"
        "Using AI to grade essays" (.int 0) true
      = .wrote (.obj (aset [("ideas", .arr []), ("votes", .obj [])] "ideas"
          (.arr ([] ++ [scenarioEntry "Using AI to grade essays" "TeamA" (.int 0)])))) true :=
  ((C7_scenario_submission [("ideas", .arr []), ("votes", .obj [])] [] "TeamA"
      "Using AI to grade essays" (.int 0) true rfl).2.2 (by decide) (by decide)).1

/-! ### Claim C8 -/

/-- C8 counterexample: creating a class whose code `ETH101` already
exists in the registry is not rejected: the creation proceeds with no
error, overwrites the registry entry, and re-initializes (wipes) the
existing class's data — contradicting the claim that a duplicate code
is a locally handled validation error with no mutation. -/
theorem C8_counterexample :
    createClass (some "pw") "pw" "Period 4" "ETH101" [("ETH101", "Period 3")] true
      = ⟨.created, some [("ETH101", "Period 4")], some ("ETH101", emptyRecord), none⟩ :=
  rfl

/-- C8 (amended): the class-creation handler performs no duplicate-code
check: with a correct password and non-empty fields, a code already
present in the registry is silently overwritten with the new name and
the class data at that code is reset to the fresh empty record. -/
theorem C8_duplicate_code_amended (secret : Option String) (pw name code : String)
    (registry : List (String × String))
    (hpw : pw = get_teacher_password secret) (hn : name ≠ "") (hc : code ≠ "")
    (hdup : (alookup registry code).isSome = true) :
    createClass secret pw name code registry true
      = ⟨.created, some (aset registry code name), some (code, emptyRecord), none⟩ := by
  rw [createClass, if_neg (fun hne => hne hpw),
    if_neg (by rintro (h1 | h1) <;> [exact hn h1; exact hc h1]), if_pos rfl]

/-- C8 witness: the amended theorem on a registry already containing
the code `ABC`. -/
theorem C8_witness :
    createClass none "teacherpass" "New Name" "ABC" [("ABC", "Old Name")] true
      = ⟨.created, some (aset [("ABC", "Old Name")] "ABC" "New Name"),
          some ("ABC", emptyRecord), none⟩ :=
  C8_duplicate_code_amended none "teacherpass" "New Name" "ABC" [("ABC", "Old Name")]
    rfl (by decide) (by decide) rfl

/-! ### Claim C6 -/

/-- C6: whenever the results tab renders a table, its rows are exactly
the aggregated rows (a permutation of `buildResults`) sorted by
`avg_score` in descending order; when every scenario's collected vote
total is zero the table is suppressed entirely and replaced by the
message "No votes have been submitted yet!"; with no scenarios a
different placeholder is shown. -/
theorem C6_results_rendering :
    (∀ (ideas : List JVal) (votes : List (String × JVal)) (rows : List ResultRow),
        resultsView ideas votes = .table rows →
        rows.Perm (buildResults ideas votes) ∧ rows.Pairwise rowGe)
    ∧ (∀ (ideas : List JVal) (votes : List (String × JVal)),
        ideas ≠ [] →
        (∀ i, i < ideas.length → (collectVotes votes i).sum = 0) →
        resultsView ideas votes = .message "No votes have been submitted yet!")
    ∧ resultsView [] [] = .message "No scenarios have been submitted yet!" := by
  refine ⟨?_, ?_, rfl⟩
  · intro ideas votes rows h
    rw [resultsView] at h
    by_cases hie : ideas.isEmpty = true
    · rw [if_pos hie] at h
      simp at h
    · rw [if_neg hie] at h
      by_cases hc : (!(buildResults ideas votes).isEmpty
          && decide (0 < ((buildResults ideas votes).map fun r => r.avg_score).sum)) = true
      · rw [if_pos hc] at h
        injection h with h2
        rw [← h2]
        exact ⟨sortRowsDesc_perm _, sortRowsDesc_sorted _⟩
      · rw [if_neg hc] at h
        simp at h
  · intro ideas votes hne hz
    have hie : ideas.isEmpty = false := by
      cases ideas with
      | nil => exact absurd rfl hne
      | cons a l => rfl
    have hsum : ((buildResults ideas votes).map fun r => r.avg_score).sum = 0 := by
      apply List.sum_eq_zero
      intro x hx
      rw [buildResults] at hx
      simp only [List.map_map, List.mem_map] at hx
      obtain ⟨p, hp, hpx⟩ := hx
      obtain ⟨i, a⟩ := p
      have hia := List.mk_mem_enum_iff_getElem?.mp hp
      have hlt : i < ideas.length := (List.getElem?_eq_some.mp hia).1
      rw [← hpx]
      show avgOf (collectVotes votes i) = 0
      by_cases hcv : collectVotes votes i = []
      · simp [avgOf, hcv]
      · have h0 : (collectVotes votes i).sum = 0 := hz i hlt
        simp [avgOf, hcv, h0]
    rw [resultsView, if_neg (by simp [hie]), hsum]
    simp

/-- C6 witness: a scenario with no collected votes at all renders the
"No votes" message instead of the table. -/
theorem C6_witness :
    resultsView [.obj [("idea", .str "s")]] []
      = .message "No votes have been submitted yet!" :=
  C6_results_rendering.2.1 [.obj [("idea", .str "s")]] []
    (List.cons_ne_nil _ _) (fun i hi => rfl)
